import Mathlib

/-!
Verification of the debug-session event pipeline of a chrome-extension
builder backend: a shallow embedding of
`src/chrome_extension_builder/browser/event_logger.py` and
`src/chrome_extension_builder/models/browser.py`.

Modelling conventions:
* Python objects become Lean structures; methods that mutate `self` become
  functions returning the updated state.
* Python dicts keyed by strings become `AList` (association lists with
  no duplicate keys), matching dict semantics: assignment replaces the
  binding, `del` removes it, membership is key lookup.
* The `uuid` ids and wall-clock `datetime` fields generated at record
  construction are nondeterministic environment inputs and are omitted
  from the records; where a timestamp is serialised (the flush timestamp,
  the console-line prefix) the current time is passed in as a `now : String`
  argument.
* The file write in `_save_logs` is modelled by threading a file-system
  map `FS` plus an injected outcome `io : Except String Unit` standing for
  success or an `OSError` raised by `open`/`json.dump`; exceptions
  propagate as `Except.error`, mirroring the absence of try/except on the
  save path.
-/

/-- `EventType(str, Enum)` from models/browser.py, with its string values. -/
inductive EventType where
  | click
  | keyboard
  | navigation
  | console_log
  | console_error
  | network_error
  | extension_error
  | dom_change
  | scroll
  | resize
deriving DecidableEq, Repr

/-- The `.value` string of each enum member. -/
def EventType.value : EventType → String
  | .click => "click"
  | .keyboard => "keyboard"
  | .navigation => "navigation"
  | .console_log => "console_log"
  | .console_error => "console_error"
  | .network_error => "network_error"
  | .extension_error => "extension_error"
  | .dom_change => "dom_change"
  | .scroll => "scroll"
  | .resize => "resize"

/-- Members of `EventType` in declaration order (Python iteration order
`for event in EventType`). -/
def EventType.all : List EventType :=
  [.click, .keyboard, .navigation, .console_log, .console_error,
   .network_error, .extension_error, .dom_change, .scroll, .resize]

/-- Python attribute access on an `EventType` enum member: members expose
`value` (the `name` attribute, unused by the source, is not modelled);
reading any other attribute — in particular `type` — raises
`AttributeError`. -/
def EventType.attr (t : EventType) (a : String) : Except String String :=
  if a = "value" then Except.ok t.value
  else Except.error
    ("AttributeError: 'EventType' object has no attribute '" ++ a ++ "'")

/-- `BrowserEvent` (models/browser.py); the uuid `id` and construction-time
`timestamp` are omitted (nondeterministic inputs). The free-form `data`
dict carries string values in every call site of `_log_event`. -/
structure BrowserEvent where
  type : EventType
  url : Option String := none
  element : Option String := none
  data : List (String × String) := []
  sessionId : String
  extensionId : Option String := none
deriving DecidableEq, Repr

/-- `BrowserError` (models/browser.py); uuid `id` and `timestamp` omitted. -/
structure BrowserError where
  type : String
  message : String
  stackTrace : Option String := none
  url : Option String := none
  sessionId : String
  extensionId : Option String := none
  severity : String := "error"
deriving DecidableEq, Repr

/-- `DebugSession` (models/browser.py); `created_at`/`updated_at` clock
fields omitted. -/
structure DebugSession where
  id : String
  browserSessionId : String
  extensionId : String
  logFilePath : Option String := none
  eventsCount : Nat := 0
  errorsCount : Nat := 0
  isActive : Bool := true
deriving DecidableEq, Repr

/-- A JSON value tree, the target of `json.dump` in `_save_logs`. -/
inductive Json where
  | str (s : String)
  | num (n : Nat)
  | null
  | arr (xs : List Json)
  | obj (fields : List (String × Json))

/-- Keys of a JSON object, in order. -/
def Json.keys : Json → List String
  | .obj fields => fields.map (fun f => f.1)
  | _ => []

/-- Field access on a JSON object. -/
def Json.getField : Json → String → Option Json
  | .obj fields, k => fields.lookup k
  | _, _ => none

/-- `None ↦ null`, `s ↦ "s"`: how `json.dump` serialises an optional string. -/
def optJson : Option String → Json
  | none => Json.null
  | some s => Json.str s

/-- The in-memory file system: path ↦ written JSON document. -/
abbrev FS := AList (fun _ : String => Json)

/-- Mutable state of `BrowserEventLogger` (event_logger.py, `__init__`):
empty event/error/console buffers, `is_logging = False`, and the
session-specific log file path `logs/session_<session_id>.json`. -/
structure BrowserEventLogger where
  sessionId : String
  extensionId : Option String
  events : List BrowserEvent
  errors : List BrowserError
  consoleLogs : List String
  isLogging : Bool
  logFilePath : String
deriving DecidableEq, Repr

namespace BrowserEventLogger

/-- `BrowserEventLogger.__init__(session_id, extension_id)`. -/
def init (sessionId : String) (extensionId : Option String) : BrowserEventLogger :=
  { sessionId := sessionId
    extensionId := extensionId
    events := []
    errors := []
    consoleLogs := []
    isLogging := false
    logFilePath := "logs/session_" ++ sessionId ++ ".json" }

/-- `start_logging`: early-returns if already logging, otherwise sets the
flag (listener registration on the page/context is an external effect). -/
def startLogging (l : BrowserEventLogger) : BrowserEventLogger :=
  if l.isLogging then l else { l with isLogging := true }

/-- The event `_log_event` constructs (url is the literal placeholder the
source uses). -/
def mkEvent (l : BrowserEventLogger) (type : EventType)
    (data : List (String × String)) : BrowserEvent :=
  { type := type
    url := some "current_page_url"
    data := data
    sessionId := l.sessionId
    extensionId := l.extensionId }

/-- `_log_event(event_type, data)`: silently drops the event unless
`is_logging` is set; otherwise appends it. (Observer callbacks receive the
event afterwards; their exceptions are caught and do not affect state.) -/
def logEvent (l : BrowserEventLogger) (type : EventType)
    (data : List (String × String)) : BrowserEventLogger :=
  if !l.isLogging then l
  else { l with events := l.events ++ [l.mkEvent type data] }

/-- The `"javascript_error"` record built by `handle_error` in
`_setup_error_logging`. -/
def mkJsError (l : BrowserEventLogger) (message : String)
    (stack : Option String) (pageUrl : String) : BrowserError :=
  { type := "javascript_error"
    message := message
    stackTrace := stack
    url := some pageUrl
    sessionId := l.sessionId
    extensionId := l.extensionId
    severity := "error" }

/-- `handle_error` (the `pageerror` listener): appends a javascript_error
to `errors` unconditionally — no `is_logging` check. -/
def handlePageError (l : BrowserEventLogger) (message : String)
    (stack : Option String) (pageUrl : String) : BrowserEventLogger :=
  { l with errors := l.errors ++ [l.mkJsError message stack pageUrl] }

/-- The `"network_error"` record built by `handle_request_failure`. -/
def mkNetError (l : BrowserEventLogger) (failure : String)
    (reqUrl : String) : BrowserError :=
  { type := "network_error"
    message := "Request failed: " ++ failure
    url := some reqUrl
    sessionId := l.sessionId
    extensionId := l.extensionId
    severity := "warning" }

/-- `handle_request_failure` (the `requestfailed` listener): if the request
carries a failure, appends a network_error unconditionally. -/
def handleRequestFailure (l : BrowserEventLogger) (failure : Option String)
    (reqUrl : String) : BrowserEventLogger :=
  match failure with
  | none => l
  | some f => { l with errors := l.errors ++ [l.mkNetError f reqUrl] }

/-- A console message as the `console` listener receives it: a level
(`msg.type`), a text, and a location dict that may lack `url` or
`lineNumber` (Python `msg.location.get(..., 'unknown')`). -/
structure ConsoleMsg where
  msgType : String
  text : String
  locUrl : Option String := none
  locLine : Option String := none
deriving DecidableEq, Repr

/-- The console event synthesised by `handle_console` in
`_setup_console_logging`. -/
def consoleEventData (m : ConsoleMsg) : List (String × String) :=
  [("message", m.text),
   ("level", m.msgType),
   ("location", m.locUrl.getD "unknown" ++ ":" ++ m.locLine.getD "unknown")]

/-- `handle_console` (the `console` listener): always appends the formatted
`"[timestamp] level: text"` line to `console_logs`, then forwards a
console_log / console_error event to `_log_event` (which drops it when
`is_logging` is unset). -/
def handleConsole (l : BrowserEventLogger) (now : String)
    (m : ConsoleMsg) : BrowserEventLogger :=
  let logEntry := "[" ++ now ++ "] " ++ m.msgType ++ ": " ++ m.text
  let l := { l with consoleLogs := l.consoleLogs ++ [logEntry] }
  let eventType := if m.msgType = "log" then EventType.console_log
                   else EventType.console_error
  l.logEvent eventType (consoleEventData m)

/-- Serialisation of an event to a plain JSON object (`event.dict()`). -/
def eventToJson (e : BrowserEvent) : Json :=
  Json.obj
    [("type", Json.str e.type.value),
     ("url", optJson e.url),
     ("element", optJson e.element),
     ("data", Json.obj (e.data.map (fun p => (p.1, Json.str p.2)))),
     ("session_id", Json.str e.sessionId),
     ("extension_id", optJson e.extensionId)]

/-- Serialisation of an error to a plain JSON object (`error.dict()`). -/
def errorToJson (e : BrowserError) : Json :=
  Json.obj
    [("type", Json.str e.type),
     ("message", Json.str e.message),
     ("stack_trace", optJson e.stackTrace),
     ("url", optJson e.url),
     ("session_id", Json.str e.sessionId),
     ("extension_id", optJson e.extensionId),
     ("severity", Json.str e.severity)]

/-- The `log_data` document `_save_logs` serialises: session metadata, the
flush timestamp, the three buffers in insertion order, and the counts
summary. -/
def logData (l : BrowserEventLogger) (now : String) : Json :=
  Json.obj
    [("session_id", Json.str l.sessionId),
     ("extension_id", optJson l.extensionId),
     ("timestamp", Json.str now),
     ("events", Json.arr (l.events.map eventToJson)),
     ("errors", Json.arr (l.errors.map errorToJson)),
     ("console_logs", Json.arr (l.consoleLogs.map Json.str)),
     ("summary", Json.obj
       [("total_events", Json.num l.events.length),
        ("total_errors", Json.num l.errors.length),
        ("total_console_logs", Json.num l.consoleLogs.length)])]

/-- `_save_logs`: writes `log_data` to `log_file_path`. The physical
`open`/`json.dump` outcome is the injected `io`; an exception propagates
(there is no try/except around the write). -/
def saveLogs (l : BrowserEventLogger) (now : String)
    (io : Except String Unit) (fs : FS) : Except String FS :=
  match io with
  | Except.error e => Except.error e
  | Except.ok _ => Except.ok (fs.insert l.logFilePath (logData l now))

/-- `stop_logging`: clears `is_logging`, then saves; a save failure
propagates to the caller. -/
def stopLogging (l : BrowserEventLogger) (now : String)
    (io : Except String Unit) (fs : FS) :
    BrowserEventLogger × Except String FS :=
  let l := { l with isLogging := false }
  (l, saveLogs l now io fs)

/-- Result type of `get_log_summary`: the dict it returns, with the two
breakdown dicts as key-ordered association lists. -/
structure LogSummary where
  sessionId : String
  extensionId : Option String
  totalEvents : Nat
  totalErrors : Nat
  totalConsoleLogs : Nat
  eventTypes : List (String × Nat)
  errorTypes : List (String × Nat)
  logFilePath : String
deriving DecidableEq, Repr

/-- First-occurrence deduplication: the key order a Python dict
comprehension produces when later duplicate keys re-assign in place. -/
def dedupKeepFirst (seen : List String) : List String → List String
  | [] => []
  | k :: ks =>
    if k ∈ seen then dedupKeepFirst seen ks
    else k :: dedupKeepFirst (k :: seen) ks

/-- One entry of the `event_types` dict comprehension in
`get_log_summary`: `event.type.value: len([e for e in self.events if
e.type == event.type])` with `event` an `EventType` enum member. The key
expression is evaluated first and reads the attribute `type` off the enum
member, which raises `AttributeError` for every member; the `ok` branch
(key and count as they would be built from a successful read) is dead
code. -/
def eventTypesEntry (l : BrowserEventLogger) (member : EventType) :
    Except String (String × Nat) :=
  match member.attr "type" with
  | Except.error e => Except.error e
  | Except.ok v =>
    Except.ok (v, (l.events.filter (fun e => decide (e.type.value = v))).length)

/-- The `event_types` comprehension of `get_log_summary`: entries for the
enum members in declaration order, propagating the first exception. -/
def eventTypesComprehension (l : BrowserEventLogger) :
    Except String (List (String × Nat)) :=
  EventType.all.mapM (eventTypesEntry l)

/-- `get_log_summary`: intends to return totals plus per-event-type and
per-error-kind breakdowns, but the `event_types` comprehension iterates
`EventType` members and accesses `event.type` on them — an attribute enum
members do not have — so evaluating the returned dict raises
`AttributeError` before the `error_types` comprehension (the
first-occurrence-ordered per-kind counts in the `ok` branch) is reached. -/
def getLogSummary (l : BrowserEventLogger) : Except String LogSummary :=
  match eventTypesComprehension l with
  | Except.error e => Except.error e
  | Except.ok eventTypes =>
    Except.ok
      { sessionId := l.sessionId
        extensionId := l.extensionId
        totalEvents := l.events.length
        totalErrors := l.errors.length
        totalConsoleLogs := l.consoleLogs.length
        eventTypes := eventTypes
        errorTypes := (dedupKeepFirst [] (l.errors.map (fun e => e.type))).map
          (fun k => (k, (l.errors.filter (fun e => decide (e.type = k))).length))
        logFilePath := l.logFilePath }

/-- `get_console_output_for_ai`: a copy of the console buffer. -/
def getConsoleOutputForAi (l : BrowserEventLogger) : List String :=
  l.consoleLogs

end BrowserEventLogger

/-- `LogAnalysis` (models/browser.py); construction-time `timestamp`
omitted. -/
structure LogAnalysis where
  sessionId : String
  summary : String
  errors : List BrowserError
  userActions : List BrowserEvent
  consoleOutput : List String
  recommendations : List String
deriving DecidableEq, Repr

/-- State of `DebugSessionManager`: the two session dicts. -/
structure DebugSessionManager where
  activeSessions : AList (fun _ : String => BrowserEventLogger)
  debugSessions : AList (fun _ : String => DebugSession)

namespace DebugSessionManager

/-- `DebugSessionManager.__init__`: both dicts empty. -/
def empty : DebugSessionManager := ⟨∅, ∅⟩

/-- `start_debug_session(session_id, extension_id, page, context)`:
builds a fresh logger and handle, assigns both dicts at `session_id`
(a plain dict assignment — replacing any existing binding), then
`start_logging` flips the stored logger's flag. Returns the handle. -/
def startDebugSession (m : DebugSessionManager)
    (sessionId extensionId : String) : DebugSessionManager × DebugSession :=
  let logger := BrowserEventLogger.init sessionId (some extensionId)
  let debugSession : DebugSession :=
    { id := sessionId
      browserSessionId := sessionId
      extensionId := extensionId
      logFilePath := some logger.logFilePath }
  let m := { m with
    activeSessions := m.activeSessions.insert sessionId logger
    debugSessions := m.debugSessions.insert sessionId debugSession }
  let m := { m with
    activeSessions := m.activeSessions.insert sessionId logger.startLogging }
  (m, debugSession)

/-- `stop_debug_session(session_id)`: no-op when the id is not in
`active_sessions`. Otherwise stops the logger (flush; a flush exception
propagates before any registry update), writes the final counts and
`is_active = False` into the handle when one exists, and deletes the id
from `active_sessions`. -/
def stopDebugSession (m : DebugSessionManager) (sessionId now : String)
    (io : Except String Unit) (fs : FS) :
    DebugSessionManager × Except String FS :=
  match m.activeSessions.lookup sessionId with
  | none => (m, Except.ok fs)
  | some logger =>
    let res := logger.stopLogging now io fs
    let logger := res.1
    let m := { m with
      activeSessions := m.activeSessions.insert sessionId logger }
    match res.2 with
    | Except.error e => (m, Except.error e)
    | Except.ok fs =>
      let m :=
        match m.debugSessions.lookup sessionId with
        | none => m
        | some debugSession =>
          let updated : DebugSession :=
            { debugSession with
              isActive := false
              eventsCount := logger.events.length
              errorsCount := logger.errors.length }
          { m with debugSessions := m.debugSessions.insert sessionId updated }
      ({ m with activeSessions := m.activeSessions.erase sessionId },
       Except.ok fs)

/-- `get_session_logs(session_id)`: `active_sessions.get`. -/
def getSessionLogs (m : DebugSessionManager) (sessionId : String) :
    Option BrowserEventLogger :=
  m.activeSessions.lookup sessionId

/-- Renders a breakdown dict as `"k1: v1, k2: v2"`. -/
def breakdownString (pairs : List (String × Nat)) : String :=
  String.intercalate ", " (pairs.map (fun p => p.1 ++ ": " ++ toString p.2))

/-- Per-kind counts of a string-keyed multiset, keys in first-occurrence
order (the incremental dict building in `_generate_log_summary`). -/
def kindCounts (kinds : List String) : List (String × Nat) :=
  (BrowserEventLogger.dedupKeepFirst [] kinds).map
    (fun k => (k, (kinds.filter (fun x => decide (x = k))).length))

/-- `_generate_log_summary`: the human-readable summary sentence. -/
def generateLogSummary (logger : BrowserEventLogger) : String :=
  let parts := ["Session logged " ++ toString logger.events.length ++
    " events over " ++ toString logger.errors.length ++ " errors."]
  let parts := if logger.events.isEmpty then parts
    else parts ++ ["Event breakdown: " ++
      breakdownString (kindCounts (logger.events.map (fun e => e.type.value)))]
  let parts := if logger.errors.isEmpty then parts
    else parts ++ ["Error breakdown: " ++
      breakdownString (kindCounts (logger.errors.map (fun e => e.type)))]
  let parts := if logger.consoleLogs.isEmpty then parts
    else parts ++ ["Console output: " ++
      toString logger.consoleLogs.length ++ " log entries"]
  String.intercalate " " parts

/-- `_generate_recommendations`: four independent heuristic rules, applied
in source order, each appending at most one recommendation string. -/
def generateRecommendations (logger : BrowserEventLogger) : List String :=
  let recommendations : List String := []
  let jsErrors := logger.errors.filter
    (fun e => decide (e.type = "javascript_error"))
  let recommendations := if jsErrors.isEmpty then recommendations
    else recommendations ++ ["Found " ++ toString jsErrors.length ++
      " JavaScript errors that may need fixing"]
  let networkErrors := logger.errors.filter
    (fun e => decide (e.type = "network_error"))
  let recommendations := if networkErrors.isEmpty then recommendations
    else recommendations ++ ["Found " ++ toString networkErrors.length ++
      " network errors that may indicate connectivity issues"]
  let extensionErrors := logger.errors.filter
    (fun e => decide (e.type = "extension_error"))
  let recommendations := if extensionErrors.isEmpty then recommendations
    else recommendations ++ ["Found " ++ toString extensionErrors.length ++
      " extension-specific errors that may need code review"]
  let clicks := logger.events.filter
    (fun e => decide (e.type = EventType.click))
  let recommendations := if clicks.length > 10 then recommendations ++
      ["High number of clicks detected - consider optimizing user interface"]
    else recommendations
  recommendations

/-- `analyze_logs_for_ai(session_id)`: raises
`ValueError(f"No logs found for session: {session_id}")` when the id is
not registered; otherwise builds a `LogAnalysis` (the source passes the
raw `logger.errors` and `logger.events` lists into the record). -/
def analyzeLogsForAi (m : DebugSessionManager) (sessionId : String) :
    Except String LogAnalysis :=
  match m.activeSessions.lookup sessionId with
  | none => Except.error ("No logs found for session: " ++ sessionId)
  | some logger =>
    Except.ok
      { sessionId := sessionId
        summary := generateLogSummary logger
        errors := logger.errors
        userActions := logger.events
        consoleOutput := logger.getConsoleOutputForAi
        recommendations := generateRecommendations logger }

end DebugSessionManager

/-! ### Generic helper lemmas about association lists and deduplication -/

/-- Lookup in an association list built by pairing each key with a
computed value: a registered key retrieves its value. -/
theorem lookup_map_pair {β : Type} (g : String → β) :
    ∀ (xs : List String) (k : String), k ∈ xs →
      (xs.map (fun x => (x, g x))).lookup k = some (g k) := by
  intro xs
  induction xs with
  | nil => intro k hk; cases hk
  | cons x xs ih =>
    intro k hk
    by_cases hkx : k = x
    · subst hkx; simp [List.lookup]
    · have hb : (k == x) = false := beq_eq_false_iff_ne.mpr hkx
      rcases List.mem_cons.mp hk with h | h
      · exact absurd h hkx
      · simp [List.lookup, hb, ih k h]

/-- Lookup of an absent key in such an association list yields `none`. -/
theorem lookup_map_pair_none {β : Type} (g : String → β) :
    ∀ (xs : List String) (k : String), k ∉ xs →
      (xs.map (fun x => (x, g x))).lookup k = none := by
  intro xs
  induction xs with
  | nil => intro k _; rfl
  | cons x xs ih =>
    intro k hk
    have hkx : ¬ k = x := fun h => hk (h ▸ List.mem_cons_self x xs)
    have hb : (k == x) = false := beq_eq_false_iff_ne.mpr hkx
    have hks : k ∉ xs := fun h => hk (List.mem_cons_of_mem x h)
    simp [List.lookup, hb, ih k hks]

/-- Membership in `dedupKeepFirst`: exactly the elements of the input not
already seen. -/
theorem mem_dedupKeepFirst (k : String) :
    ∀ (ks seen : List String),
      k ∈ BrowserEventLogger.dedupKeepFirst seen ks ↔ k ∈ ks ∧ k ∉ seen := by
  intro ks
  induction ks with
  | nil => intro seen; simp [BrowserEventLogger.dedupKeepFirst]
  | cons x ks ih =>
    intro seen
    by_cases hx : x ∈ seen
    · simp only [BrowserEventLogger.dedupKeepFirst, if_pos hx, ih,
        List.mem_cons]
      constructor
      · rintro ⟨h1, h2⟩; exact ⟨Or.inr h1, h2⟩
      · rintro ⟨h1 | h1, h2⟩
        · exact absurd (h1 ▸ hx) h2
        · exact ⟨h1, h2⟩
    · simp only [BrowserEventLogger.dedupKeepFirst, if_neg hx,
        List.mem_cons, ih]
      constructor
      · rintro (rfl | ⟨h1, h2⟩)
        · exact ⟨Or.inl rfl, hx⟩
        · exact ⟨Or.inr h1, fun hk => h2 (Or.inr hk)⟩
      · rintro ⟨rfl | h1, h2⟩
        · exact Or.inl rfl
        · by_cases hkx : k = x
          · exact Or.inl hkx
          · exact Or.inr ⟨h1, fun hk => hk.elim hkx h2⟩

/-- `stop_debug_session` on an unregistered id returns the state and file
system untouched. -/
theorem stopDebugSession_not_registered (m : DebugSessionManager)
    (sessionId now : String) (io : Except String Unit) (fs : FS)
    (h : m.activeSessions.lookup sessionId = none) :
    m.stopDebugSession sessionId now io fs = (m, Except.ok fs) := by
  simp [DebugSessionManager.stopDebugSession, h]

/-! ### Concrete fixtures used by counterexamples and witnesses -/

/-- A registry holding one session `"s"` for extension `"e1"`. -/
def c1m1 : DebugSessionManager :=
  (DebugSessionManager.empty.startDebugSession "s" "e1").1

/-- The same registry after a second `start_debug_session` with the same
session id `"s"` but extension `"e2"`. -/
def c1m2 : DebugSessionManager :=
  (c1m1.startDebugSession "s" "e2").1

/-- The logger `c1m1` holds for session `"s"`. -/
def c6logger : BrowserEventLogger :=
  (BrowserEventLogger.init "s" (some "e1")).startLogging

/-- The debug-session handle created for session `"s"`. -/
def c8ds : DebugSession :=
  (DebugSessionManager.empty.startDebugSession "s" "e1").2

/-- A fresh logger with logging active. -/
def c2active : BrowserEventLogger :=
  (BrowserEventLogger.init "s2" (some "e2")).startLogging

/-- A logger holding 3 javascript_errors and 11 click events. -/
def c3logger : BrowserEventLogger :=
  (fun l : BrowserEventLogger => l.logEvent EventType.click [])^[11]
    ((fun l : BrowserEventLogger => l.handlePageError "boom" none "u")^[3]
      ((BrowserEventLogger.init "s3" (some "e3")).startLogging))

/-! ### Claim theorems -/

/-- Claim C1, counterexample: in registry `c1m1` the session id `"s"` is
registered (its logger and handle carry extension `"e1"`); calling
`start_debug_session` again with id `"s"` and extension `"e2"` does not
fail and does not leave the registration unchanged — both the stored
logger and the stored Debug Session handle are replaced by ones carrying
`"e2"`. -/
theorem startDebugSession_overwrite_counterexample :
    ((c1m1.activeSessions.lookup "s").map (fun l => l.extensionId)
      = some (some "e1")) ∧
    ((c1m2.activeSessions.lookup "s").map (fun l => l.extensionId)
      = some (some "e2")) ∧
    ((c1m2.debugSessions.lookup "s").map (fun d => d.extensionId)
      = some "e2") ∧
    c1m2.activeSessions.lookup "s" ≠ c1m1.activeSessions.lookup "s" ∧
    c1m2.debugSessions.lookup "s" ≠ c1m1.debugSessions.lookup "s" := by
  exact ⟨by decide, by decide, by decide, by decide, by decide⟩

/-- Claim C1 (amended): `start_debug_session` never signals a conflict:
for every registry state — in particular one where the session id is
already registered — it silently replaces the registration, so that
afterwards the active map holds a fresh logger (empty buffers, logging
active) and the handle map holds the newly returned handle. -/
theorem startDebugSession_silent_overwrite (m : DebugSessionManager)
    (sessionId extensionId : String) :
    ((m.startDebugSession sessionId extensionId).1.activeSessions.lookup
        sessionId
      = some ((BrowserEventLogger.init sessionId (some extensionId)).startLogging)) ∧
    ((m.startDebugSession sessionId extensionId).1.debugSessions.lookup
        sessionId
      = some (m.startDebugSession sessionId extensionId).2) := by
  exact ⟨AList.lookup_insert _, AList.lookup_insert _⟩

/-- Claim C2: with the logging flag unset, `_log_event` leaves the state
unchanged (the event is silently dropped, no error); the page-error and
request-failure handlers append their error regardless of the flag; with
the flag set, `_log_event` appends exactly the constructed event. -/
theorem recordEvent_drop_recordError_always (l : BrowserEventLogger)
    (t : EventType) (d : List (String × String)) (msg : String)
    (st : Option String) (u f u2 : String) :
    (l.isLogging = false → l.logEvent t d = l) ∧
    ((l.handlePageError msg st u).errors
      = l.errors ++ [l.mkJsError msg st u]) ∧
    ((l.handleRequestFailure (some f) u2).errors
      = l.errors ++ [l.mkNetError f u2]) ∧
    (l.isLogging = true →
      (l.logEvent t d).events = l.events ++ [l.mkEvent t d]) := by
  refine ⟨?_, rfl, rfl, ?_⟩
  · intro h; simp [BrowserEventLogger.logEvent, h]
  · intro h; simp [BrowserEventLogger.logEvent, h]

/-- Witness for C2 at concrete loggers: an inactive fresh logger drops a
click event; `c2active` (flag set) appends it. -/
theorem recordEvent_drop_recordError_always_witness :
    ((BrowserEventLogger.init "s0" none).logEvent EventType.click []
      = BrowserEventLogger.init "s0" none) ∧
    ((c2active.logEvent EventType.click []).events
      = c2active.events ++ [c2active.mkEvent EventType.click []]) := by
  have h1 := recordEvent_drop_recordError_always
    (BrowserEventLogger.init "s0" none) EventType.click [] "m" none "u" "f" "u2"
  have h2 := recordEvent_drop_recordError_always
    c2active EventType.click [] "m" none "u" "f" "u2"
  exact ⟨h1.1 rfl, h2.2.2.2 rfl⟩

/-- Claim C3: the analyzer's recommendation list is the concatenation of
four independent rules evaluated in order — a javascript_error count
recommendation, a network_error count recommendation, an extension_error
count recommendation, and a UI-review recommendation when strictly more
than 10 click events are present; in particular `c3logger` (3
javascript_errors, 11 clicks) yields exactly two recommendations, the
error one first. -/
theorem generateRecommendations_rules (l : BrowserEventLogger) :
    (DebugSessionManager.generateRecommendations l =
      (if l.errors.countP (fun e => decide (e.type = "javascript_error")) = 0
       then []
       else ["Found " ++
         toString (l.errors.countP (fun e => decide (e.type = "javascript_error")))
         ++ " JavaScript errors that may need fixing"]) ++
      (if l.errors.countP (fun e => decide (e.type = "network_error")) = 0
       then []
       else ["Found " ++
         toString (l.errors.countP (fun e => decide (e.type = "network_error")))
         ++ " network errors that may indicate connectivity issues"]) ++
      (if l.errors.countP (fun e => decide (e.type = "extension_error")) = 0
       then []
       else ["Found " ++
         toString (l.errors.countP (fun e => decide (e.type = "extension_error")))
         ++ " extension-specific errors that may need code review"]) ++
      (if 10 < l.events.countP (fun e => decide (e.type = EventType.click))
       then ["High number of clicks detected - consider optimizing user interface"]
       else [])) ∧
    DebugSessionManager.generateRecommendations c3logger =
      ["Found 3 JavaScript errors that may need fixing",
       "High number of clicks detected - consider optimizing user interface"] := by
  constructor
  · simp only [DebugSessionManager.generateRecommendations,
      List.countP_eq_length_filter, List.isEmpty_iff_length_eq_zero]
    by_cases h1 :
        (l.errors.filter (fun e => decide (e.type = "javascript_error"))).length = 0 <;>
      by_cases h2 :
        (l.errors.filter (fun e => decide (e.type = "network_error"))).length = 0 <;>
      by_cases h3 :
        (l.errors.filter (fun e => decide (e.type = "extension_error"))).length = 0 <;>
      by_cases h4 :
        10 < (l.events.filter (fun e => decide (e.type = EventType.click))).length <;>
      simp [h1, h2, h3, h4]
  · decide

/-- Claim C4: flushing writes to the path `logs/session_<session_id>.json`
a JSON document with exactly the keys `session_id`, `extension_id`,
`timestamp`, `events` (insertion order, as plain objects), `errors`
(insertion order, as plain objects), `console_logs` (the console-line
strings), and `summary`, whose `total_events`, `total_errors` and
`total_console_logs` equal the lengths of the respective buffers. -/
theorem saveLogs_file_format (l : BrowserEventLogger) (now : String)
    (fs : FS)
    (h : l.logFilePath = "logs/session_" ++ l.sessionId ++ ".json") :
    (BrowserEventLogger.saveLogs l now (Except.ok ()) fs =
      Except.ok (fs.insert ("logs/session_" ++ l.sessionId ++ ".json")
        (BrowserEventLogger.logData l now))) ∧
    (BrowserEventLogger.logData l now).keys =
      ["session_id", "extension_id", "timestamp", "events", "errors",
       "console_logs", "summary"] ∧
    (BrowserEventLogger.logData l now).getField "session_id"
      = some (Json.str l.sessionId) ∧
    (BrowserEventLogger.logData l now).getField "extension_id"
      = some (optJson l.extensionId) ∧
    (BrowserEventLogger.logData l now).getField "timestamp"
      = some (Json.str now) ∧
    (BrowserEventLogger.logData l now).getField "events"
      = some (Json.arr (l.events.map BrowserEventLogger.eventToJson)) ∧
    (BrowserEventLogger.logData l now).getField "errors"
      = some (Json.arr (l.errors.map BrowserEventLogger.errorToJson)) ∧
    (BrowserEventLogger.logData l now).getField "console_logs"
      = some (Json.arr (l.consoleLogs.map Json.str)) ∧
    (BrowserEventLogger.logData l now).getField "summary"
      = some (Json.obj
          [("total_events", Json.num l.events.length),
           ("total_errors", Json.num l.errors.length),
           ("total_console_logs", Json.num l.consoleLogs.length)]) := by
  refine ⟨?_, rfl, rfl, rfl, rfl, rfl, rfl, rfl, rfl⟩
  rw [← h]
  rfl

/-- Witness for C4: the freshly initialised logger for session `"s1"` has
the required path, and flushing it (0 events, 0 errors) yields a
well-formed document whose `summary.total_events` is 0. -/
theorem saveLogs_file_format_witness :
    ((BrowserEventLogger.init "s1" (some "e1")).logFilePath
      = "logs/session_s1.json") ∧
    (BrowserEventLogger.logData (BrowserEventLogger.init "s1" (some "e1"))
        "T").getField "summary"
      = some (Json.obj
          [("total_events", Json.num 0),
           ("total_errors", Json.num 0),
           ("total_console_logs", Json.num 0)]) := by
  have h := saveLogs_file_format (BrowserEventLogger.init "s1" (some "e1"))
    "T" ∅ rfl
  exact ⟨rfl, h.2.2.2.2.2.2.2.2⟩

/-- Claim C5 (code bug): `get_log_summary` never succeeds: for every
logger state — already for the freshly initialised empty logger — the
`event_types` comprehension reads the attribute `type` off an `EventType`
enum member and raises `AttributeError`, so the summary of counts and
breakdowns the spec describes is never returned. -/
theorem getLogSummary_raises (l : BrowserEventLogger) :
    l.getLogSummary = Except.error
      "AttributeError: 'EventType' object has no attribute 'type'" ∧
    (BrowserEventLogger.init "s1" (some "e1")).getLogSummary = Except.error
      "AttributeError: 'EventType' object has no attribute 'type'" := by
  exact ⟨rfl, rfl⟩

/-- Claim C6: `analyze_logs_for_ai` on a session id absent from the
active map fails with the explicit not-found error (never a default or
empty analysis); on a registered id it returns the Log Analysis built
from that session's logger. -/
theorem analyzeLogsForAi_not_found (m : DebugSessionManager)
    (sessionId : String) :
    (m.activeSessions.lookup sessionId = none →
      m.analyzeLogsForAi sessionId =
        Except.error ("No logs found for session: " ++ sessionId)) ∧
    (∀ logger : BrowserEventLogger,
      m.activeSessions.lookup sessionId = some logger →
      m.analyzeLogsForAi sessionId = Except.ok
        { sessionId := sessionId
          summary := DebugSessionManager.generateLogSummary logger
          errors := logger.errors
          userActions := logger.events
          consoleOutput := logger.getConsoleOutputForAi
          recommendations :=
            DebugSessionManager.generateRecommendations logger }) := by
  constructor
  · intro h; simp [DebugSessionManager.analyzeLogsForAi, h]
  · intro logger h; simp [DebugSessionManager.analyzeLogsForAi, h]

/-- Witness for C6: on `c1m1` (which registers only `"s"`), analysis of
`"missing"` fails with the not-found error — even though the registry is
non-empty — and analysis of `"s"` returns a Log Analysis. -/
theorem analyzeLogsForAi_not_found_witness :
    c1m1.analyzeLogsForAi "missing" =
      Except.error "No logs found for session: missing" ∧
    c1m1.analyzeLogsForAi "s" = Except.ok
      { sessionId := "s"
        summary := DebugSessionManager.generateLogSummary c6logger
        errors := c6logger.errors
        userActions := c6logger.events
        consoleOutput := c6logger.getConsoleOutputForAi
        recommendations :=
          DebugSessionManager.generateRecommendations c6logger } := by
  have h1 := analyzeLogsForAi_not_found c1m1 "missing"
  have h2 := analyzeLogsForAi_not_found c1m1 "s"
  exact ⟨h1.1 rfl, h2.2 c6logger rfl⟩

/-- Claim C7: stopping a session id that is not in the active map is a
harmless no-op (state and file system unchanged, result `ok`); hence
after any stop whose flush succeeded, a second stop of the same id is a
no-op on the resulting state. -/
theorem stopDebugSession_noop_idempotent (m : DebugSessionManager)
    (sessionId now now2 : String) (io io2 : Except String Unit)
    (fs fs2 : FS) :
    (m.activeSessions.lookup sessionId = none →
      m.stopDebugSession sessionId now io fs = (m, Except.ok fs)) ∧
    ((m.stopDebugSession sessionId now (Except.ok ()) fs).1.stopDebugSession
        sessionId now2 io2 fs2
      = ((m.stopDebugSession sessionId now (Except.ok ()) fs).1,
         Except.ok fs2)) := by
  constructor
  · intro h; exact stopDebugSession_not_registered m sessionId now io fs h
  · rcases hl : m.activeSessions.lookup sessionId with _ | logger
    · have h1 := stopDebugSession_not_registered m sessionId now
        (Except.ok ()) fs hl
      rw [h1]
      exact stopDebugSession_not_registered m sessionId now2 io2 fs2 hl
    · have hgone :
          (m.stopDebugSession sessionId now (Except.ok ()) fs).1.activeSessions.lookup
            sessionId = none := by
        simp only [DebugSessionManager.stopDebugSession, hl,
          BrowserEventLogger.stopLogging, BrowserEventLogger.saveLogs]
        cases hd : m.debugSessions.lookup sessionId <;>
          simp [hd, AList.lookup_erase]
      exact stopDebugSession_not_registered _ sessionId now2 io2 fs2 hgone

/-- Witness for C7: stopping the unregistered `"missing"` on `c1m1` is a
no-op, and the second of two stops of `"s"` is a no-op. -/
theorem stopDebugSession_noop_idempotent_witness :
    c1m1.stopDebugSession "missing" "T" (Except.ok ()) ∅ =
      (c1m1, Except.ok ∅) ∧
    ((c1m1.stopDebugSession "s" "T" (Except.ok ()) ∅).1.stopDebugSession
        "s" "T2" (Except.ok ()) ∅
      = ((c1m1.stopDebugSession "s" "T" (Except.ok ()) ∅).1,
         Except.ok ∅)) := by
  have h1 := stopDebugSession_noop_idempotent c1m1 "missing" "T" "T2"
    (Except.ok ()) (Except.ok ()) ∅ ∅
  have h2 := stopDebugSession_noop_idempotent c1m1 "s" "T" "T2"
    (Except.ok ()) (Except.ok ()) ∅ ∅
  exact ⟨h1.1 rfl, h2.2⟩

/-- Claim C8: stopping a registered session flushes the (deactivated)
log to its file, removes the session from the active map — so
`get_session_logs` subsequently returns `none` — and updates the
surviving Debug Session handle with `is_active = false` and the final
event and error counts. -/
theorem stopDebugSession_finalizes (m : DebugSessionManager)
    (sessionId now : String) (fs : FS) (logger : BrowserEventLogger)
    (ds : DebugSession)
    (hA : m.activeSessions.lookup sessionId = some logger)
    (hD : m.debugSessions.lookup sessionId = some ds) :
    (m.stopDebugSession sessionId now (Except.ok ()) fs).2 =
      Except.ok (fs.insert logger.logFilePath
        (BrowserEventLogger.logData { logger with isLogging := false } now)) ∧
    (m.stopDebugSession sessionId now (Except.ok ()) fs).1.activeSessions.lookup
        sessionId = none ∧
    (m.stopDebugSession sessionId now (Except.ok ()) fs).1.getSessionLogs
        sessionId = none ∧
    (m.stopDebugSession sessionId now (Except.ok ()) fs).1.debugSessions.lookup
        sessionId =
      some { ds with
             isActive := false
             eventsCount := logger.events.length
             errorsCount := logger.errors.length } := by
  refine ⟨?_, ?_, ?_, ?_⟩ <;>
    simp only [DebugSessionManager.stopDebugSession, hA,
      BrowserEventLogger.stopLogging, BrowserEventLogger.saveLogs, hD,
      DebugSessionManager.getSessionLogs] <;>
    first
      | trivial
      | exact AList.lookup_erase _ _
      | exact AList.lookup_insert _

/-- Witness for C8: stopping `"s"` on `c1m1` leaves no active logs for
`"s"` while the handle survives, deactivated with final counts 0. -/
theorem stopDebugSession_finalizes_witness :
    (c1m1.stopDebugSession "s" "T" (Except.ok ()) ∅).1.getSessionLogs "s"
      = none ∧
    (c1m1.stopDebugSession "s" "T" (Except.ok ()) ∅).1.debugSessions.lookup "s"
      = some { c8ds with
               isActive := false
               eventsCount := 0
               errorsCount := 0 } := by
  have h := stopDebugSession_finalizes c1m1 "s" "T" ∅ c6logger c8ds rfl rfl
  exact ⟨h.2.2.1, h.2.2.2⟩

/-- Claim C9: a failing file write during the flush (`_save_logs`)
propagates its error through `stop_logging` and through
`stop_debug_session` to the caller — no layer catches and swallows it. -/
theorem flush_failure_propagates (l : BrowserEventLogger) (now e : String)
    (fs : FS) (m : DebugSessionManager) (sessionId : String) :
    BrowserEventLogger.saveLogs l now (Except.error e) fs
      = Except.error e ∧
    (l.stopLogging now (Except.error e) fs).2 = Except.error e ∧
    (m.activeSessions.lookup sessionId = some l →
      (m.stopDebugSession sessionId now (Except.error e) fs).2
        = Except.error e) := by
  refine ⟨rfl, rfl, ?_⟩
  intro h
  simp [DebugSessionManager.stopDebugSession, h,
    BrowserEventLogger.stopLogging, BrowserEventLogger.saveLogs]

/-- Witness for C9: a failing flush while stopping the registered session
`"s"` of `c1m1` surfaces the error to the caller. -/
theorem flush_failure_propagates_witness :
    c1m1.activeSessions.lookup "s" = some c6logger ∧
    (c1m1.stopDebugSession "s" "T" (Except.error "disk full") ∅).2
      = Except.error "disk full" := by
  have h := flush_failure_propagates c6logger "T" "disk full" ∅ c1m1 "s"
  exact ⟨rfl, h.2.2 rfl⟩

/-- Claim C10: a console message always appends its formatted
`"[timestamp] level: text"` line to the console buffer — also while the
logging flag is false, when the synthesized console event is dropped;
with the flag set, both the line and the console event are recorded. -/
theorem handleConsole_inactive_active (l : BrowserEventLogger)
    (now : String) (msg : BrowserEventLogger.ConsoleMsg) :
    (l.isLogging = false →
      (l.handleConsole now msg).consoleLogs =
        l.consoleLogs ++
          ["[" ++ now ++ "] " ++ msg.msgType ++ ": " ++ msg.text] ∧
      (l.handleConsole now msg).events = l.events) ∧
    (l.isLogging = true →
      (l.handleConsole now msg).consoleLogs =
        l.consoleLogs ++
          ["[" ++ now ++ "] " ++ msg.msgType ++ ": " ++ msg.text] ∧
      (l.handleConsole now msg).events =
        l.events ++
          [l.mkEvent
            (if msg.msgType = "log" then EventType.console_log
             else EventType.console_error)
            (BrowserEventLogger.consoleEventData msg)]) := by
  constructor <;> intro h <;>
    constructor <;>
      simp [BrowserEventLogger.handleConsole, BrowserEventLogger.logEvent,
        BrowserEventLogger.mkEvent, h]

/-- Witness for C10: a console error message on an inactive fresh logger
lands in the console buffer but not in the events; on the active
`c2active` both are recorded. -/
theorem handleConsole_inactive_active_witness :
    ((BrowserEventLogger.init "s0" none).handleConsole "T"
        ⟨"error", "boom", none, none⟩).consoleLogs = ["[T] error: boom"] ∧
    ((BrowserEventLogger.init "s0" none).handleConsole "T"
        ⟨"error", "boom", none, none⟩).events = [] ∧
    (c2active.handleConsole "T" ⟨"error", "boom", none, none⟩).consoleLogs
      = ["[T] error: boom"] ∧
    (c2active.handleConsole "T" ⟨"error", "boom", none, none⟩).events
      = [c2active.mkEvent EventType.console_error
          (BrowserEventLogger.consoleEventData ⟨"error", "boom", none, none⟩)] := by
  have h1 := handleConsole_inactive_active (BrowserEventLogger.init "s0" none)
    "T" ⟨"error", "boom", none, none⟩
  have h2 := handleConsole_inactive_active c2active "T"
    ⟨"error", "boom", none, none⟩
  refine ⟨(h1.1 rfl).1.trans (by decide), (h1.1 rfl).2, ?_, ?_⟩
  · exact (h2.2 rfl).1.trans (by decide)
  · exact ((h2.2 rfl).2).trans (by decide)
